import Mathlib

/-!
Verification of the prediction pipeline of `modules/predictor.py`
(class `PricePredictor`), shallowly embedded over exact rationals.

Conventions of the embedding:
* Python floats are modelled as `ℚ`; decimal literals in the source are
  exact in `ℚ`.
* A pandas `DataFrame` of price history is modelled as a `List Bar` in
  ascending date order (the data loader returns date-indexed ascending
  frames, so `data.sort_index()` in `_prepare_features` is the identity).
* `pandas.Series.std()` is the sample standard deviation (ddof = 1).  Its
  square root is irrational in general, so the embedding tracks the
  *square* of the stored volatility (the sample variance); every property
  of interest is an equality with `0` or a comparison between nonnegative
  reals, which squaring preserves exactly.
* Code that can raise is modelled with `Except String`; a `try/except`
  block is a `match` on the `Except` value.
* `random.uniform(0.98, 1.02)` is modelled as an explicit parameter
  `randFactor` of the environment.
-/

namespace Predictor

/-- One OHLCV bar; only the fields `_prepare_features` reads. -/
structure Bar where
  close : ℚ
  volume : ℚ
deriving Repr, DecidableEq, Inhabited

/-- `Series.mean()` on a list of rationals. -/
def listMean (l : List ℚ) : ℚ := l.sum / l.length

/-- `Series.pct_change().dropna()`: the list of `close[t]/close[t-1] - 1`. -/
def pctReturns (l : List ℚ) : List ℚ :=
  List.zipWith (fun a b => b / a - 1) l l.tail

/-- The square of `Series.std()` (sample variance, ddof = 1).  For a
one-element list the source would produce NaN; that case is unreachable in
the code path (windows of five closes always yield four returns) and here
yields `0` by rational division by zero. -/
def sampleVar (l : List ℚ) : ℚ :=
  (l.map (fun x => (x - listMean l) ^ 2)).sum / ((l.length : ℚ) - 1)

/-- The feature row `[ma_5, prev_close, volume_ma, volatility]` built per
bar by `_prepare_features`; `volatilitySq` is the square of the stored
volatility (see the header comment). -/
structure FeatureVec where
  ma5 : ℚ
  prevClose : ℚ
  volumeMa : ℚ
  volatilitySq : ℚ
deriving Repr, DecidableEq, Inhabited

def closes (data : List Bar) : List ℚ := data.map Bar.close

def volumes (data : List Bar) : List ℚ := data.map Bar.volume

/-- The slice `iloc[i-4:i+1]` used when `i >= 4`. -/
def window5 (l : List ℚ) (i : ℕ) : List ℚ := (l.drop (i - 4)).take 5

/-- The body of the loop of `_prepare_features` at index `i`. -/
def featAt (data : List Bar) (i : ℕ) : FeatureVec :=
  let cl := closes data
  let vo := volumes data
  let ma5 := if 4 ≤ i then listMean (window5 cl i) else cl.getD i 0
  let prevClose := if 0 < i then cl.getD (i - 1) 0 else cl.getD i 0
  let volumeMa := if 4 ≤ i then listMean (window5 vo i) else vo.getD i 0
  let volatilitySq :=
    if 4 ≤ i then
      let rets := pctReturns (window5 cl i)
      if 0 < rets.length then sampleVar rets else 0
    else 0
  ⟨ma5, prevClose, volumeMa, volatilitySq⟩

/-- `_prepare_features`: one feature row per input bar, in order. -/
def prepareFeatures (data : List Bar) : List FeatureVec :=
  (List.range data.length).map (featAt data)

/-- The threshold bands of `_apply_sentiment_adjustment`. -/
def sentimentFactor (s : ℚ) : ℚ :=
  if s ≥ 0.5 then 1.005
  else if s ≥ 0.2 then 1.002
  else if s ≤ -0.5 then 0.995
  else if s ≤ -0.2 then 0.998
  else 1

/-- `adjustment_weight` in `_apply_sentiment_adjustment`. -/
def adjustmentWeight : ℚ := 0.3

/-- The blended, pre-clamp value of `_apply_sentiment_adjustment`. -/
def preClampAdjusted (base s : ℚ) : ℚ :=
  base * (1 - adjustmentWeight) + base * sentimentFactor s * adjustmentWeight

/-- `_apply_sentiment_adjustment`: blend, then clamp to
`[current_price - 5%, current_price + 5%]`. -/
def applySentimentAdjustment (base cp s : ℚ) : ℚ :=
  let adjusted := preClampAdjusted base s
  let maxChange := cp * 0.05
  let lowerBound := cp - maxChange
  let upperBound := cp + maxChange
  max lowerBound (min upperBound adjusted)

/-- Python's `round` to the nearest integer with ties to even, on an exact
rational. -/
def roundHalfEven (q : ℚ) : ℤ :=
  if q - ⌊q⌋ < 1 / 2 then ⌊q⌋
  else if (1 : ℚ) / 2 < q - ⌊q⌋ then ⌊q⌋ + 1
  else if ⌊q⌋ % 2 = 0 then ⌊q⌋ else ⌊q⌋ + 1

/-- Python's `round(x, 2)`. -/
def round2 (q : ℚ) : ℚ := (roundHalfEven (q * 100) : ℚ) / 100

/-- `_simple_predict`; `r` is the draw of `random.uniform(0.98, 1.02)`. -/
def simplePredict (cp s r : ℚ) : ℚ :=
  round2 (cp * (1 + s * 0.02) * r)

/-- The opaque trained regressor: its class name and its prediction on a
scaled feature row (which, like `sklearn`, may raise). -/
structure Model where
  name : String
  predictScaled : FeatureVec → Except String ℚ

/-- The opaque fitted `StandardScaler`: `transform` may raise (e.g. when
unfitted). -/
structure Scaler where
  transform : FeatureVec → Except String FeatureVec

/-- The attribute state of a `PricePredictor` instance after `__init__`. -/
structure PState where
  ticker : String
  model : Option Model
  scaler : Scaler
  isTrained : Bool

/-- The external world of one `predict_next` call: what
`get_realtime_data` returns (or the exception it raises), and the uniform
random factor the simple path would draw. -/
structure Env where
  getRealtimeData : Except String (ℚ × List Bar)
  randFactor : ℚ

/-- The body of the `try` block of `predict_next`: `.ok v` is a normal
return of `v`, `.error e` is an exception reaching the `except` handler. -/
def predictNextE (st : PState) (env : Env) (cp s : ℚ) : Except String ℚ :=
  if !st.isTrained || st.model.isNone then
    .ok (simplePredict cp s env.randFactor)
  else
    match st.model with
    | none => .ok (simplePredict cp s env.randFactor)
    | some m =>
      match env.getRealtimeData with
      | .error e => .error e
      | .ok (_, hist) =>
        if hist.length < 5 then .ok (simplePredict cp s env.randFactor)
        else
          match (prepareFeatures (hist.drop (hist.length - 5))).getLast? with
          | none => .error "empty feature matrix"
          | some fv =>
            match st.scaler.transform fv with
            | .error e => .error e
            | .ok scaled =>
              match m.predictScaled scaled with
              | .error e => .error e
              | .ok base => .ok (round2 (applySentimentAdjustment base cp s))

/-- `predict_next`: the `try` body with its `except` fallback to
`_simple_predict`. -/
def predictNext (st : PState) (env : Env) (cp s : ℚ) : ℚ :=
  match predictNextE st env cp s with
  | .ok v => v
  | .error _ => simplePredict cp s env.randFactor

/-- `abs(prediction - current_price) / current_price`, raising
`ZeroDivisionError` exactly when `current_price == 0`. -/
def changePercentE (cp p : ℚ) : Except String ℚ :=
  if cp = 0 then .error "division by zero" else .ok (|p - cp| / cp)

/-- The `if`-chain of `get_prediction_confidence` assigning the base
confidence from the relative change. -/
def confidenceBucket (c : ℚ) : ℚ :=
  if c ≤ 0.01 then 0.9
  else if c ≤ 0.03 then 0.7
  else if c ≤ 0.05 then 0.5
  else 0.3

/-- `get_prediction_confidence`: bucket the relative change, add `0.1`
when trained, cap at `1.0`; any exception yields `0.5`. -/
def getPredictionConfidence (isTrained : Bool) (cp p : ℚ) : ℚ :=
  match changePercentE cp p with
  | .error _ => 0.5
  | .ok c =>
    let conf := if isTrained then confidenceBucket c + 0.1 else confidenceBucket c
    min 1 conf

/-- The guard structure of `_train_model`: whether construction reaches
the split/standardize/fit/select stage, as a function of the length of the
fetched historical series.  (A fit-time exception would additionally leave
the predictor untrained; the guards are what decides *skipping*.) -/
def trainingProceeds (histLen : ℕ) : Bool :=
  if histLen < 10 then false
  else if histLen - 1 < 5 then false
  else true

/-- `predict_next` as a state transformer: the source method contains no
attribute assignment, so every exit returns the instance state unchanged. -/
def predictNextS (st : PState) (env : Env) (cp s : ℚ) : ℚ × PState :=
  (predictNext st env cp s, st)

/-- `get_prediction_confidence` as a state transformer (no attribute
assignment in the source). -/
def getPredictionConfidenceS (st : PState) (cp p : ℚ) : ℚ × PState :=
  (getPredictionConfidence st.isTrained cp p, st)

/-- The dict returned by `get_model_info`. -/
structure ModelInfo where
  ticker : String
  isTrained : Bool
  modelType : String
  features : List String

/-- `get_model_info` as a state transformer (no attribute assignment in
the source). -/
def getModelInfoS (st : PState) : ModelInfo × PState :=
  ({ ticker := st.ticker
     isTrained := st.isTrained
     modelType := match st.model with | some m => m.name | none => "Simple"
     features := ["moving_avg", "previous_close", "volume_ma", "volatility"] },
   st)

/-- Modelled from the spec (§4.1), for refinement comparison only: the
trailing window `[max(0,i-4), i]` inclusive, clamped to available data. -/
def specWindow (l : List ℚ) (i : ℕ) : List ℚ :=
  (l.drop (i - 4)).take (i + 1 - (i - 4))

/-- Modelled from the spec (§4.1), for refinement comparison only:
`moving_avg_5[i]` as the mean of `close` over the trailing window. -/
def movingAvgSpec (data : List Bar) (i : ℕ) : ℚ :=
  listMean (specWindow (closes data) i)

/-- Modelled from the spec (§4.1), for refinement comparison only:
`volume_ma_5[i]` as the mean of `volume` over the trailing window. -/
def volumeMaSpec (data : List Bar) (i : ℕ) : ℚ :=
  listMean (specWindow (volumes data) i)

/-- Modelled from the spec (§4.1), for refinement comparison only: the
square of `volatility_5[i]` as the sample variance of the percentage
returns over the trailing window, `0` when fewer than two returns exist. -/
def volatilitySqSpec (data : List Bar) (i : ℕ) : ℚ :=
  let rets := pctReturns (specWindow (closes data) i)
  if rets.length ≤ 1 then 0 else sampleVar rets

end Predictor

namespace Predictor

/-! ## Helper lemmas -/

theorem prepareFeatures_getD (data : List Bar) (i : ℕ) (hi : i < data.length) :
    (prepareFeatures data).getD i default = featAt data i := by
  unfold prepareFeatures
  rw [List.getD_eq_getElem?_getD, List.getElem?_map, List.getElem?_range hi]
  rfl

theorem closes_getD (data : List Bar) (i : ℕ) (hi : i < data.length) :
    (closes data).getD i 0 = (data.getD i default).close := by
  unfold closes
  rw [List.getD_eq_getElem?_getD, List.getElem?_map,
    List.getD_eq_getElem?_getD, List.getElem?_eq_getElem hi]
  rfl

theorem volumes_getD (data : List Bar) (i : ℕ) (hi : i < data.length) :
    (volumes data).getD i 0 = (data.getD i default).volume := by
  unfold volumes
  rw [List.getD_eq_getElem?_getD, List.getElem?_map,
    List.getD_eq_getElem?_getD, List.getElem?_eq_getElem hi]
  rfl

theorem roundHalfEven_close (q : ℚ) : |(roundHalfEven q : ℚ) - q| ≤ 1 / 2 := by
  have h1 : (⌊q⌋ : ℚ) ≤ q := Int.floor_le q
  have h2 : q < ⌊q⌋ + 1 := Int.lt_floor_add_one q
  unfold roundHalfEven
  split_ifs with hf hg he <;> rw [abs_le] <;> constructor <;> push_cast <;> linarith

theorem round2_close (q : ℚ) : |round2 q - q| ≤ 1 / 200 := by
  have h := roundHalfEven_close (q * 100)
  unfold round2
  rw [abs_le] at h ⊢
  obtain ⟨h1, h2⟩ := h
  constructor <;> linarith

theorem adjustment_in_band (base cp s : ℚ) (hcp : 0 < cp) :
    cp * 0.95 ≤ applySentimentAdjustment base cp s ∧
      applySentimentAdjustment base cp s ≤ cp * 1.05 := by
  unfold applySentimentAdjustment
  constructor
  · have : cp * 0.95 = cp - cp * 0.05 := by ring
    rw [this]
    exact le_max_left _ _
  · apply max_le
    · linarith
    · have : cp + cp * 0.05 = cp * 1.05 := by ring
      calc min (cp + cp * 0.05) (preClampAdjusted base s) ≤ cp + cp * 0.05 :=
            min_le_left _ _
        _ = cp * 1.05 := this

theorem confidenceBucket_antitone {c₁ c₂ : ℚ} (h : c₁ ≤ c₂) :
    confidenceBucket c₂ ≤ confidenceBucket c₁ := by
  unfold confidenceBucket
  split_ifs <;> norm_num at * <;> linarith

theorem confidenceBucket_bounds (c : ℚ) :
    0.3 ≤ confidenceBucket c ∧ confidenceBucket c ≤ 0.9 := by
  unfold confidenceBucket
  split_ifs <;> norm_num

theorem window5_length (l : List ℚ) (i : ℕ) (h4 : 4 ≤ i) (hi : i < l.length) :
    (window5 l i).length = 5 := by
  unfold window5
  rw [List.length_take, List.length_drop]
  omega

theorem pctReturns_length (l : List ℚ) : (pctReturns l).length = l.length - 1 := by
  unfold pctReturns
  rw [List.length_zipWith, List.length_tail]
  omega

theorem specWindow_eq_window5 (l : List ℚ) (i : ℕ) (h4 : 4 ≤ i) :
    specWindow l i = window5 l i := by
  unfold specWindow window5
  congr 1
  omega

theorem getPredictionConfidence_of_ne (t : Bool) {cp : ℚ} (p : ℚ) (h : cp ≠ 0) :
    getPredictionConfidence t cp p =
      min 1 (confidenceBucket (|p - cp| / cp) + if t then 0.1 else 0) := by
  unfold getPredictionConfidence changePercentE
  rw [if_neg h]
  cases t <;> simp

/-! ## Claim theorems -/

/-- C6: on the model-available path, for every sentiment in `[-1, 1]` the
sentiment multiplier is `1.005` for `s ≥ 0.5`, `1.002` for
`0.2 ≤ s < 0.5`, `1` for `-0.2 < s < 0.2`, `0.998` for `-0.5 < s ≤ -0.2`
and `0.995` for `s ≤ -0.5`, and the pre-clamp adjusted value is
`base*0.7 + (base*multiplier)*0.3`. -/
theorem sentimentFactor_bands_and_blend (base s : ℚ) (hs1 : -1 ≤ s) (hs2 : s ≤ 1) :
    (0.5 ≤ s → sentimentFactor s = 1.005) ∧
    (0.2 ≤ s ∧ s < 0.5 → sentimentFactor s = 1.002) ∧
    (-0.2 < s ∧ s < 0.2 → sentimentFactor s = 1) ∧
    (-0.5 < s ∧ s ≤ -0.2 → sentimentFactor s = 0.998) ∧
    (s ≤ -0.5 → sentimentFactor s = 0.995) ∧
    preClampAdjusted base s = base * 0.7 + (base * sentimentFactor s) * 0.3 := by
  refine ⟨?_, ?_, ?_, ?_, ?_, ?_⟩
  · intro h
    unfold sentimentFactor
    split_ifs <;> norm_num at * <;> linarith
  · rintro ⟨h1, h2⟩
    unfold sentimentFactor
    split_ifs <;> norm_num at * <;> linarith
  · rintro ⟨h1, h2⟩
    unfold sentimentFactor
    split_ifs <;> norm_num at * <;> linarith
  · rintro ⟨h1, h2⟩
    unfold sentimentFactor
    split_ifs <;> norm_num at * <;> linarith
  · intro h
    unfold sentimentFactor
    split_ifs <;> norm_num at * <;> linarith
  · unfold preClampAdjusted adjustmentWeight
    ring

theorem sentimentFactor_bands_and_blend_witness :
    (0.5 ≤ (0.6 : ℚ) → sentimentFactor 0.6 = 1.005) ∧
    (0.2 ≤ (0.6 : ℚ) ∧ (0.6 : ℚ) < 0.5 → sentimentFactor 0.6 = 1.002) ∧
    (-0.2 < (0.6 : ℚ) ∧ (0.6 : ℚ) < 0.2 → sentimentFactor 0.6 = 1) ∧
    (-0.5 < (0.6 : ℚ) ∧ (0.6 : ℚ) ≤ -0.2 → sentimentFactor 0.6 = 0.998) ∧
    ((0.6 : ℚ) ≤ -0.5 → sentimentFactor 0.6 = 0.995) ∧
    preClampAdjusted 2 0.6 = 2 * 0.7 + (2 * sentimentFactor 0.6) * 0.3 :=
  sentimentFactor_bands_and_blend 2 0.6 (by norm_num) (by norm_num)

/-- C10: when `current_price = 0` the relative-change computation raises
`ZeroDivisionError`, the handler catches it, and the returned confidence
is exactly `0.5`. -/
theorem getPredictionConfidence_zero_price (t : Bool) (p : ℚ) :
    getPredictionConfidence t 0 p = 0.5 := by
  simp [getPredictionConfidence, changePercentE]

/-- C9: `predict_next`, `get_prediction_confidence` and `get_model_info`
contain no attribute assignment: each returns with the instance state
(ticker, model, scaler, is_trained) unchanged. -/
theorem predictor_ops_preserve_state (st : PState) (env : Env) (cp s p : ℚ) :
    (predictNextS st env cp s).2 = st ∧
    (getPredictionConfidenceS st cp p).2 = st ∧
    (getModelInfoS st).2 = st :=
  ⟨rfl, rfl, rfl⟩

/-- C5: `predict_next` always returns a numeric value — either the simple
fallback (untrained model, short series, or any caught exception) or the
rounded sentiment-adjusted model estimate; no error escapes. -/
theorem predictNext_total (st : PState) (env : Env) (cp s : ℚ) :
    predictNext st env cp s = simplePredict cp s env.randFactor ∨
    ∃ base, predictNext st env cp s = round2 (applySentimentAdjustment base cp s) := by
  unfold predictNext predictNextE
  by_cases h : (!st.isTrained || st.model.isNone) = true
  · rw [if_pos h]
    left; rfl
  · rw [if_neg h]
    cases hm : st.model with
    | none => left; rfl
    | some m =>
      dsimp only
      cases hd : env.getRealtimeData with
      | error e => left; rfl
      | ok pr =>
        obtain ⟨cur, hist⟩ := pr
        dsimp only
        by_cases hl : hist.length < 5
        · rw [if_pos hl]
          left; rfl
        · rw [if_neg hl]
          cases hfv : (prepareFeatures (hist.drop (hist.length - 5))).getLast? with
          | none => left; rfl
          | some fv =>
            dsimp only
            cases hsc : st.scaler.transform fv with
            | error e => left; rfl
            | ok scaled =>
              dsimp only
              cases hp : m.predictScaled scaled with
              | error e => left; rfl
              | ok base => right; exact ⟨base, rfl⟩

/-- C8: for fixed trained flag and `current_price > 0`, the confidence is
non-increasing in the relative deviation, lies in `[0, 1]`, and equals
the bucket value plus the trained bonus, capped at `1`. -/
theorem getPredictionConfidence_monotone (t : Bool) (cp p₁ p₂ : ℚ) (hcp : 0 < cp)
    (h : |p₁ - cp| / cp ≤ |p₂ - cp| / cp) :
    getPredictionConfidence t cp p₂ ≤ getPredictionConfidence t cp p₁ ∧
    (0 ≤ getPredictionConfidence t cp p₁ ∧ getPredictionConfidence t cp p₁ ≤ 1) ∧
    getPredictionConfidence t cp p₁ =
      min 1 (confidenceBucket (|p₁ - cp| / cp) + if t then 0.1 else 0) := by
  have hne : cp ≠ 0 := ne_of_gt hcp
  rw [getPredictionConfidence_of_ne t p₁ hne, getPredictionConfidence_of_ne t p₂ hne]
  have hb := confidenceBucket_antitone h
  have hl1 := (confidenceBucket_bounds (|p₁ - cp| / cp)).1
  have hu1 := (confidenceBucket_bounds (|p₁ - cp| / cp)).2
  refine ⟨?_, ⟨?_, min_le_left _ _⟩, rfl⟩
  · apply min_le_min le_rfl
    cases t <;> simp <;> linarith
  · apply le_min (by norm_num)
    cases t <;> simp <;> linarith

theorem getPredictionConfidence_monotone_witness :
    (getPredictionConfidence true 1 2 ≤ getPredictionConfidence true 1 1 ∧
    (0 ≤ getPredictionConfidence true 1 1 ∧ getPredictionConfidence true 1 1 ≤ 1) ∧
    getPredictionConfidence true 1 1 =
      min 1 (confidenceBucket (|(1 : ℚ) - 1| / 1) + if True then 0.1 else 0)) := by
  have := getPredictionConfidence_monotone true 1 1 2 (by norm_num) (by norm_num)
  simpa using this

/-- C1 (amended): for every base, every `current_price > 0` and every
sentiment in `[-1, 1]`, the clamped value of
`_apply_sentiment_adjustment` lies exactly within
`[current_price*0.95, current_price*1.05]`; the value `predict_next`
returns on the trained path — that value rounded to 2 decimal places —
lies within the band widened by the half-cent rounding error `0.005`. -/
theorem adjusted_prediction_band (base cp s : ℚ) (hcp : 0 < cp)
    (hs1 : -1 ≤ s) (hs2 : s ≤ 1) :
    (cp * 0.95 ≤ applySentimentAdjustment base cp s ∧
     applySentimentAdjustment base cp s ≤ cp * 1.05) ∧
    (cp * 0.95 - 0.005 ≤ round2 (applySentimentAdjustment base cp s) ∧
     round2 (applySentimentAdjustment base cp s) ≤ cp * 1.05 + 0.005) := by
  obtain ⟨h1, h2⟩ := adjustment_in_band base cp s hcp
  have hr := round2_close (applySentimentAdjustment base cp s)
  rw [abs_le] at hr
  obtain ⟨hr1, hr2⟩ := hr
  refine ⟨⟨h1, h2⟩, ?_, ?_⟩ <;> linarith

theorem adjusted_prediction_band_witness :
    (((1 : ℚ) * 0.95 ≤ applySentimentAdjustment 100 1 0 ∧
      applySentimentAdjustment 100 1 0 ≤ 1 * 1.05) ∧
     ((1 : ℚ) * 0.95 - 0.005 ≤ round2 (applySentimentAdjustment 100 1 0) ∧
      round2 (applySentimentAdjustment 100 1 0) ≤ 1 * 1.05 + 0.005)) :=
  adjusted_prediction_band 100 1 0 (by norm_num) (by norm_num) (by norm_num)

/-- C1 counterexample: at `current_price = 1.004`, `base = 0`,
`sentiment = 0`, the clamp returns exactly the lower bound `0.9538`, and
rounding to 2 decimal places yields `0.95 < 1.004*0.95`: the rounded value
returned by `predict_next` falls outside the claimed band. -/
theorem adjusted_prediction_band_counterexample :
    ¬ ((1.004 : ℚ) * 0.95 ≤ round2 (applySentimentAdjustment 0 1.004 0) ∧
       round2 (applySentimentAdjustment 0 1.004 0) ≤ 1.004 * 1.05) := by
  have hval : applySentimentAdjustment 0 1.004 0 = 0.9538 := by
    norm_num [applySentimentAdjustment, preClampAdjusted, sentimentFactor,
      adjustmentWeight, min_def, max_def]
  have hr : round2 (0.9538 : ℚ) = 0.95 := by
    norm_num [round2, roundHalfEven]
  rw [hval, hr]
  norm_num

/-- C7: the feature builder returns exactly one feature vector per input
bar, in order; in particular on a length-1 series it returns exactly one
vector whose `previous_close` equals `close[0]` and whose volatility is
`0`. -/
theorem prepareFeatures_one_per_bar (data : List Bar) (hne : data ≠ []) :
    (prepareFeatures data).length = data.length ∧
    (data.length = 1 →
      (prepareFeatures data).length = 1 ∧
      ((prepareFeatures data).getD 0 default).prevClose = (data.getD 0 default).close ∧
      ((prepareFeatures data).getD 0 default).volatilitySq = 0) := by
  have hlen : (prepareFeatures data).length = data.length := by
    simp [prepareFeatures]
  refine ⟨hlen, fun h1 => ⟨by rw [hlen, h1], ?_, ?_⟩⟩
  · rw [prepareFeatures_getD data 0 (by omega)]
    simp only [featAt]
    rw [if_neg (by omega : ¬ (0 : ℕ) < 0)]
    exact closes_getD data 0 (by omega)
  · rw [prepareFeatures_getD data 0 (by omega)]
    simp only [featAt]
    rw [if_neg (by omega : ¬ 4 ≤ (0 : ℕ))]

theorem prepareFeatures_one_per_bar_witness :
    (prepareFeatures [(⟨3, 7⟩ : Bar)]).length = [(⟨3, 7⟩ : Bar)].length ∧
    ([(⟨3, 7⟩ : Bar)].length = 1 →
      (prepareFeatures [(⟨3, 7⟩ : Bar)]).length = 1 ∧
      ((prepareFeatures [(⟨3, 7⟩ : Bar)]).getD 0 default).prevClose =
        ([(⟨3, 7⟩ : Bar)].getD 0 default).close ∧
      ((prepareFeatures [(⟨3, 7⟩ : Bar)]).getD 0 default).volatilitySq = 0) :=
  prepareFeatures_one_per_bar [⟨3, 7⟩] (by simp)

/-- C2 (amended): for `i < 4` the builder does not average a partial
window — it uses the current bar alone: `moving_avg_5[i] = close[i]` and
`volume_ma_5[i] = volume[i]`. -/
theorem features_small_index (data : List Bar) (i : ℕ) (hi : i < data.length)
    (h4 : i < 4) :
    ((prepareFeatures data).getD i default).ma5 = (data.getD i default).close ∧
    ((prepareFeatures data).getD i default).volumeMa = (data.getD i default).volume := by
  rw [prepareFeatures_getD data i hi]
  simp only [featAt]
  rw [if_neg (by omega : ¬ 4 ≤ i), if_neg (by omega : ¬ 4 ≤ i)]
  exact ⟨closes_getD data i hi, volumes_getD data i hi⟩

theorem features_small_index_witness :
    ((prepareFeatures [(⟨1, 10⟩ : Bar), ⟨2, 20⟩]).getD 1 default).ma5 =
      ([(⟨1, 10⟩ : Bar), ⟨2, 20⟩].getD 1 default).close ∧
    ((prepareFeatures [(⟨1, 10⟩ : Bar), ⟨2, 20⟩]).getD 1 default).volumeMa =
      ([(⟨1, 10⟩ : Bar), ⟨2, 20⟩].getD 1 default).volume :=
  features_small_index [⟨1, 10⟩, ⟨2, 20⟩] 1 (by norm_num) (by norm_num)

/-- C2 counterexample: on the two-bar series `(close, volume) = (1, 10),
(2, 20)` the builder's `moving_avg_5[1]` is `2` (the current close) and
`volume_ma_5[1]` is `20`, not the claimed partial-window means `3/2` and
`15`. -/
theorem features_small_index_counterexample :
    ((prepareFeatures [(⟨1, 10⟩ : Bar), ⟨2, 20⟩]).getD 1 default).ma5 = 2 ∧
    ((prepareFeatures [(⟨1, 10⟩ : Bar), ⟨2, 20⟩]).getD 1 default).volumeMa = 20 ∧
    movingAvgSpec [(⟨1, 10⟩ : Bar), ⟨2, 20⟩] 1 = 3 / 2 ∧
    volumeMaSpec [(⟨1, 10⟩ : Bar), ⟨2, 20⟩] 1 = 15 ∧
    (2 : ℚ) ≠ 3 / 2 ∧ (20 : ℚ) ≠ 15 := by
  rw [prepareFeatures_getD _ 1 (by norm_num)]
  refine ⟨?_, ?_, ?_, ?_, by norm_num, by norm_num⟩ <;>
    norm_num [featAt, movingAvgSpec, volumeMaSpec, specWindow, closes, volumes,
      window5, listMean]

/-- C4 (amended): the builder's volatility is `0` for every `i < 4`
(including windows of 2–4 bars whose returns have nonzero deviation);
for `4 ≤ i < length` it is the sample standard deviation of the four
returns of the full 5-bar window, where it agrees with the spec's
windowed rule.  (Stated on the squared volatility; see the header.) -/
theorem volatility_feature (data : List Bar) (i : ℕ) (hi : i < data.length) :
    (i < 4 → ((prepareFeatures data).getD i default).volatilitySq = 0) ∧
    (4 ≤ i → ((prepareFeatures data).getD i default).volatilitySq =
        sampleVar (pctReturns (window5 (closes data) i)) ∧
      ((prepareFeatures data).getD i default).volatilitySq = volatilitySqSpec data i) := by
  rw [prepareFeatures_getD data i hi]
  have hcl : (closes data).length = data.length := by simp [closes]
  constructor
  · intro h4
    simp only [featAt]
    rw [if_neg (by omega : ¬ 4 ≤ i)]
  · intro h4
    have hw : (window5 (closes data) i).length = 5 :=
      window5_length _ _ h4 (by omega)
    have hr : (pctReturns (window5 (closes data) i)).length = 4 := by
      rw [pctReturns_length, hw]
    have hcode : (featAt data i).volatilitySq =
        sampleVar (pctReturns (window5 (closes data) i)) := by
      simp only [featAt]
      rw [if_pos h4, if_pos (by omega : 0 < (pctReturns (window5 (closes data) i)).length)]
    refine ⟨hcode, ?_⟩
    rw [hcode]
    unfold volatilitySqSpec
    rw [specWindow_eq_window5 _ _ h4, if_neg (by omega)]

theorem volatility_feature_witness :
    ((4 : ℕ) < 4 →
      ((prepareFeatures [(⟨1, 1⟩ : Bar), ⟨1, 1⟩, ⟨1, 1⟩, ⟨1, 1⟩, ⟨1, 1⟩]).getD 4
        default).volatilitySq = 0) ∧
    (4 ≤ (4 : ℕ) →
      ((prepareFeatures [(⟨1, 1⟩ : Bar), ⟨1, 1⟩, ⟨1, 1⟩, ⟨1, 1⟩, ⟨1, 1⟩]).getD 4
          default).volatilitySq =
        sampleVar (pctReturns (window5
          (closes [(⟨1, 1⟩ : Bar), ⟨1, 1⟩, ⟨1, 1⟩, ⟨1, 1⟩, ⟨1, 1⟩]) 4)) ∧
      ((prepareFeatures [(⟨1, 1⟩ : Bar), ⟨1, 1⟩, ⟨1, 1⟩, ⟨1, 1⟩, ⟨1, 1⟩]).getD 4
          default).volatilitySq =
        volatilitySqSpec [(⟨1, 1⟩ : Bar), ⟨1, 1⟩, ⟨1, 1⟩, ⟨1, 1⟩, ⟨1, 1⟩] 4) :=
  volatility_feature [⟨1, 1⟩, ⟨1, 1⟩, ⟨1, 1⟩, ⟨1, 1⟩, ⟨1, 1⟩] 4 (by norm_num)

/-- C4 counterexample: on the four-bar series with closes `1, 2, 3, 4`
the claim's windowed rule gives a nonzero volatility at `i = 3` (three
returns with sample variance `13/108`), but the builder produces `0`. -/
theorem volatility_feature_counterexample :
    ((prepareFeatures [(⟨1, 0⟩ : Bar), ⟨2, 0⟩, ⟨3, 0⟩, ⟨4, 0⟩]).getD 3
      default).volatilitySq = 0 ∧
    volatilitySqSpec [(⟨1, 0⟩ : Bar), ⟨2, 0⟩, ⟨3, 0⟩, ⟨4, 0⟩] 3 = 13 / 108 ∧
    (0 : ℚ) ≠ 13 / 108 := by
  rw [prepareFeatures_getD _ 3 (by norm_num)]
  refine ⟨?_, ?_, by norm_num⟩
  · norm_num [featAt]
  · norm_num [volatilitySqSpec, specWindow, closes, pctReturns, sampleVar, listMean]

/-- C3 counterexample: a 7-bar series leaves `6 ≥ 5` aligned pairs after
the first-row drop, yet `_train_model` skips training (its first guard
requires at least 10 bars). -/
theorem trainingProceeds_counterexample :
    trainingProceeds 7 = false ∧ 5 ≤ 7 - 1 := by decide

/-- C3 (amended): training proceeds exactly when the fetched series has
at least 10 bars — equivalently at least 9 aligned pairs after the
first-row drop; whenever that holds the later fewer-than-5-pairs guard
cannot fire (it is dead code). -/
theorem trainingProceeds_iff (n : ℕ) :
    (trainingProceeds n = true ↔ 10 ≤ n) ∧ (10 ≤ n → 5 ≤ n - 1) := by
  unfold trainingProceeds
  constructor
  · split_ifs with h1 h2 <;> simp <;> omega
  · omega

theorem trainingProceeds_iff_witness :
    (trainingProceeds 12 = true ↔ 10 ≤ 12) ∧ (10 ≤ 12 → 5 ≤ 12 - 1) :=
  trainingProceeds_iff 12

end Predictor
